import Mathlib

/-!
# Billing-Period & Attendance Reconciliation Engine — verification

Shallow embedding of the reconciliation core of the tuition-center
administration app (`src/src/App.tsx`, with the reduced variant
`src/unnamed/part_000` as a second copy of the same logic).

Calendar dates appear in the source as ISO `YYYY-MM-DD` strings compared
by the backing store's date order, which coincides with lexicographic
order on those strings; we embed a date as a `Nat` (e.g. the number
20240215 for `2024-02-15`), which has the same total order.
Fee periods (`fee_month`, `YYYY-MM`) are only ever compared for equality,
so they stay `String`s.
-/

set_option autoImplicit false

namespace RajeevClasses

/-- Student status: `Active` or `Left` (`App.tsx` line 57). -/
inductive StudentStatus where
  | Active
  | Left
  deriving DecidableEq, Repr

/-- Payment channel: `Cash` or `Online` (`App.tsx` line 76). -/
inductive PaymentMode where
  | Cash
  | Online
  deriving DecidableEq, Repr

/-- Attendance status: `Present`, `Absent`, `Leave` or `Holiday`
(`App.tsx` line 67). -/
inductive AttStatus where
  | Present
  | Absent
  | Leave
  | Holiday
  deriving DecidableEq, Repr

/-- The `Student` row (`App.tsx` lines 48–61); fields the reconciliation
core never reads (`school_name`, `parent_name`, `notes`, `teacher_id`)
are dropped. `leaving_date` is nullable in the store, hence `Option`. -/
structure Student where
  id : Nat
  full_name : String
  class_grade : String
  parent_phone : String
  admission_date : Nat
  batch_timing : Option String
  status : StudentStatus
  leaving_date : Option Nat
  deriving DecidableEq, Repr

/-- Minimal joined student display fields on a fee row, from the select
`student:students(full_name, class_grade, batch_timing)` (`App.tsx`
line 211). -/
structure StudentJoin where
  full_name : String
  class_grade : String
  batch_timing : Option String
  deriving DecidableEq, Repr

/-- The `Fee` row (`App.tsx` lines 70–78) as returned by the monthly fees
query, i.e. together with the nullable joined student display record
(`App.tsx` line 89). -/
structure Fee where
  id : Nat
  student_id : Nat
  fee_month : String
  amount : Nat
  paid_date : String
  payment_mode : PaymentMode
  payment_reference : Option String
  student : Option StudentJoin
  deriving DecidableEq, Repr

/-- The `AttendanceRecord` row (`App.tsx` lines 63–68). -/
structure AttendanceRecord where
  id : Nat
  student_id : Nat
  attendance_date : Nat
  status : AttStatus
  deriving DecidableEq, Repr

/-! ## 1. Active-Student-Set Resolver

`fetchData` step 1 (`App.tsx` lines 202–206):

    .from('students').select('*')
      .lte('admission_date', endOfMonth)
      .or(`status.eq.Active,leaving_date.gte.${startOfMonth}`)

In the store's filter semantics, a comparison against a NULL
`leaving_date` is not satisfied, hence the `Option.rec` below. -/

/-- The filter `leaving_date.gte.d` on a nullable column: false on NULL. -/
def leavingGte (s : Student) (d : Nat) : Bool :=
  match s.leaving_date with
  | some l => d ≤ l
  | none => false

/-- The filter `leaving_date.lte.d` on a nullable column: false on NULL. -/
def leavingLte (s : Student) (d : Nat) : Bool :=
  match s.leaving_date with
  | some l => l ≤ d
  | none => false

/-- The active-students query of `fetchData` (`App.tsx` lines 202–206):
admitted on or before `endM` and (`status = Active` or
`leaving_date ≥ startM`). -/
def activeStudents (startM endM : Nat) (students : List Student) : List Student :=
  students.filter fun s =>
    decide (s.admission_date ≤ endM) &&
      (s.status == StudentStatus.Active || leavingGte s startM)

/-- The spec's §4.1 inclusion rule, written from the spec's words:
`admission_date ≤ end-of-month ∧ (status = Active ∨
(status = Left ∧ leaving_date ≥ start-of-month))`. -/
def specActiveRule (startM endM : Nat) (s : Student) : Prop :=
  s.admission_date ≤ endM ∧
    (s.status = StudentStatus.Active ∨
      (s.status = StudentStatus.Left ∧ ∃ l, s.leaving_date = some l ∧ startM ≤ l))

instance (startM endM : Nat) (s : Student) : Decidable (specActiveRule startM endM s) := by
  unfold specActiveRule
  exact inferInstance

theorem leavingGte_eq_true_iff (s : Student) (d : Nat) :
    leavingGte s d = true ↔ ∃ l, s.leaving_date = some l ∧ d ≤ l := by
  unfold leavingGte
  cases h : s.leaving_date with
  | none => simp
  | some l => simp [decide_eq_true_iff]

/-- C1: membership in the code's active set coincides with the spec's
inclusion rule. -/
theorem active_set_iff_spec_rule (startM endM : Nat) (students : List Student)
    (s : Student) :
    s ∈ activeStudents startM endM students ↔
      s ∈ students ∧ specActiveRule startM endM s := by
  have hdi : s.status = StudentStatus.Active ∨ s.status = StudentStatus.Left := by
    cases s.status
    · exact Or.inl rfl
    · exact Or.inr rfl
  unfold activeStudents specActiveRule
  rw [List.mem_filter]
  simp only [Bool.and_eq_true, Bool.or_eq_true, decide_eq_true_iff, beq_iff_eq,
    leavingGte_eq_true_iff]
  tauto

/-! ## 2. Fee Reconciliation Engine

`fetchData` steps 2–4 and the dashboard assembly
(`App.tsx` lines 209–249). -/

/-- The monthly fees query (`App.tsx` lines 209–212):
`.from('fees').select('*, student:...').eq('fee_month', selectedMonth)`. -/
def paidFeesFor (selectedMonth : String) (fees : List Fee) : List Fee :=
  fees.filter fun f => f.fee_month == selectedMonth

/-- The left-this-month query (`App.tsx` lines 215–220):
`.eq('status', 'Left').gte('leaving_date', startM).lte('leaving_date', endM)`. -/
def leftStudentsFor (startM endM : Nat) (students : List Student) : List Student :=
  students.filter fun s =>
    s.status == StudentStatus.Left && leavingGte s startM && leavingLte s endM

/-- The monthly attendance query (`App.tsx` lines 223–227):
`.gte('attendance_date', startM).lte('attendance_date', endM)`. -/
def monthlyAttendanceFor (startM endM : Nat) (att : List AttendanceRecord) :
    List AttendanceRecord :=
  att.filter fun r =>
    decide (startM ≤ r.attendance_date) && decide (r.attendance_date ≤ endM)

/-- The `totalCollected` reduce (`App.tsx` line 230): sum of all row amounts. -/
def totalCollected (paidFees : List Fee) : Nat :=
  paidFees.foldl (fun sum f => sum + f.amount) 0

/-- The `cashCollected` sum (`App.tsx` line 231). -/
def cashCollected (paidFees : List Fee) : Nat :=
  totalCollected (paidFees.filter fun f => f.payment_mode == PaymentMode.Cash)

/-- The `onlineCollected` sum (`App.tsx` line 232). -/
def onlineCollected (paidFees : List Fee) : Nat :=
  totalCollected (paidFees.filter fun f => f.payment_mode == PaymentMode.Online)

/-- The `paidStudentIds` set (`App.tsx` line 234), built from
`paidFees.map(f => f.student_id)`; a JS `Set` keeps each element once. -/
def paidStudentIds (paidFees : List Fee) : List Nat :=
  (paidFees.map fun f => f.student_id).dedup

/-- The `unpaidStudents` filter (`App.tsx` line 235):
`activeStudents.filter(s => !paidStudentIds.has(s.id))`. -/
def unpaidStudents (active : List Student) (paidFees : List Fee) : List Student :=
  active.filter fun s => !(paidStudentIds paidFees).contains s.id

/-- The derived dashboard state (`DashboardData`, `App.tsx` lines 80–91). -/
structure DashboardData where
  activeCount : Nat
  totalCollected : Nat
  cashCollected : Nat
  onlineCollected : Nat
  paidCount : Nat
  unpaidCount : Nat
  leftThisMonth : Nat
  unpaidStudents : List Student
  paidFees : List Fee
  monthlyAttendance : List AttendanceRecord
  deriving DecidableEq, Repr

/-- The dashboard object published by `setDashboard` (`App.tsx` lines 237–248),
as a function of one pass's query results.  `leftStudents` and `monthlyAtt`
are nullable there (`leftStudents?.length || 0`, `monthlyAtt || []`). -/
def buildDashboard (active : List Student) (paidFees : List Fee)
    (leftStudents : Option (List Student))
    (monthlyAtt : Option (List AttendanceRecord)) : DashboardData :=
  { activeCount := active.length
    totalCollected := totalCollected paidFees
    cashCollected := cashCollected paidFees
    onlineCollected := onlineCollected paidFees
    paidCount := paidFees.length
    unpaidCount := (unpaidStudents active paidFees).length
    leftThisMonth := (leftStudents.map List.length).getD 0
    unpaidStudents := unpaidStudents active paidFees
    paidFees := paidFees
    monthlyAttendance := monthlyAtt.getD [] }

theorem totalCollected_eq_sum (paidFees : List Fee) :
    totalCollected paidFees = (paidFees.map fun f => f.amount).sum := by
  unfold totalCollected
  have h : ∀ (l : List Fee) (n : Nat),
      l.foldl (fun sum f => sum + f.amount) n = n + (l.map fun f => f.amount).sum := by
    intro l
    induction l with
    | nil => intro n; simp
    | cons f fs ih =>
      intro n
      simp [List.foldl_cons, ih, Nat.add_assoc]
  simpa using h paidFees 0

theorem sumAmounts_partition (fees : List Fee) :
    ((fees.filter fun f => f.payment_mode == PaymentMode.Cash).map fun f => f.amount).sum
      + ((fees.filter fun f => f.payment_mode == PaymentMode.Online).map fun f => f.amount).sum
    = (fees.map fun f => f.amount).sum := by
  induction fees with
  | nil => simp
  | cons f fs ih =>
    cases h : f.payment_mode <;> simp [List.filter_cons, h] <;> omega

theorem length_filter_not (l : List Student) (p : Student → Bool) :
    (l.filter fun a => !(p a)).length = l.length - (l.filter p).length := by
  have h : (l.filter p).length + (l.filter fun a => !(p a)).length = l.length := by
    induction l with
    | nil => simp
    | cons a as ih =>
      cases ha : p a <;> simp [List.filter_cons, ha] <;> omega
  omega

/-- C3: for every reconciled fee result, the two channel sums add up to the
total collected. -/
theorem cash_plus_online_eq_total (active : List Student) (paidFees : List Fee)
    (l : Option (List Student)) (m : Option (List AttendanceRecord)) :
    (buildDashboard active paidFees l m).cashCollected
      + (buildDashboard active paidFees l m).onlineCollected
    = (buildDashboard active paidFees l m).totalCollected := by
  show cashCollected paidFees + onlineCollected paidFees = totalCollected paidFees
  unfold cashCollected onlineCollected
  rw [totalCollected_eq_sum, totalCollected_eq_sum, totalCollected_eq_sum]
  exact sumAmounts_partition paidFees

/-- C2: a student with at least one payment row for the period is never in
`unpaidStudents`; the paid id set holds the student exactly once; and
`totalCollected` still sums the amounts of all rows. -/
theorem paid_student_never_unpaid (active : List Student) (paidFees : List Fee)
    (l : Option (List Student)) (m : Option (List AttendanceRecord)) (s : Student)
    (hpaid : ∃ f ∈ paidFees, f.student_id = s.id) :
    s ∉ (buildDashboard active paidFees l m).unpaidStudents ∧
      (paidStudentIds paidFees).count s.id = 1 ∧
      (buildDashboard active paidFees l m).totalCollected
        = (paidFees.map fun f => f.amount).sum := by
  have hmemid : s.id ∈ paidStudentIds paidFees := by
    unfold paidStudentIds
    rw [List.mem_dedup]
    obtain ⟨f, hf, hfs⟩ := hpaid
    exact List.mem_map.mpr ⟨f, hf, hfs⟩
  refine ⟨?_, ?_, ?_⟩
  · intro hmem
    have hfil := (List.mem_filter.mp hmem).2
    simp [List.contains] at hfil
    exact hfil hmemid
  · exact List.count_eq_one_of_mem (List.nodup_dedup _) hmemid
  · exact totalCollected_eq_sum paidFees

/-- A fee row: student 1 pays 500 in cash for 2024-01. -/
def feeA : Fee :=
  { id := 1, student_id := 1, fee_month := "2024-01", amount := 500
    paid_date := "2024-01-05", payment_mode := PaymentMode.Cash
    payment_reference := none, student := none }

/-- A second fee row for the same student and period: 300 online. -/
def feeB : Fee :=
  { id := 2, student_id := 1, fee_month := "2024-01", amount := 300
    paid_date := "2024-01-20", payment_mode := PaymentMode.Online
    payment_reference := none, student := none }

/-- Student 1, active since 2024-01-10. -/
def studentOne : Student :=
  { id := 1, full_name := "Asha Rao", class_grade := "10", parent_phone := "9"
    admission_date := 20240110, batch_timing := none
    status := StudentStatus.Active, leaving_date := none }

/-- Student 2, active, with no payment rows. -/
def studentTwo : Student :=
  { id := 2, full_name := "Vikram Sen", class_grade := "9", parent_phone := "8"
    admission_date := 20230601, batch_timing := none
    status := StudentStatus.Active, leaving_date := none }

theorem paid_student_never_unpaid_witness :
    studentOne ∉ (buildDashboard [studentOne] [feeA, feeB] none none).unpaidStudents ∧
      (paidStudentIds [feeA, feeB]).count studentOne.id = 1 ∧
      (buildDashboard [studentOne] [feeA, feeB] none none).totalCollected = 800 := by
  have h := paid_student_never_unpaid [studentOne] [feeA, feeB] none none studentOne
    ⟨feeA, by simp, rfl⟩
  refine ⟨h.1, h.2.1, ?_⟩
  rw [h.2.2]
  rfl

/-- Comparison definition written from the spec's words (§4.2): the number
of distinct students with at least one payment row this period. -/
def specDistinctPaidCount (paidFees : List Fee) : Nat :=
  ((paidFees.map fun f => f.student_id).dedup).length

/-- C4 counterexample: with two payment rows for the one student,
`paidCount` is 2 (the row count), not 1 (the distinct-student count). -/
theorem paidCount_ne_distinct_students :
    (buildDashboard [studentOne] [feeA, feeB] none none).paidCount = 2 ∧
      specDistinctPaidCount [feeA, feeB] = 1 ∧
      (buildDashboard [studentOne] [feeA, feeB] none none).paidCount
        ≠ specDistinctPaidCount [feeA, feeB] := by
  refine ⟨rfl, ?_, ?_⟩ <;> decide

/-- C4 amended: `paidCount` equals the number of payment rows for the
period (so it can exceed the number of distinct paying students, which is
at most the row count). -/
theorem paidCount_eq_row_count (active : List Student) (paidFees : List Fee)
    (l : Option (List Student)) (m : Option (List AttendanceRecord)) :
    (buildDashboard active paidFees l m).paidCount = paidFees.length ∧
      specDistinctPaidCount paidFees ≤ paidFees.length := by
  refine ⟨rfl, ?_⟩
  calc specDistinctPaidCount paidFees
      ≤ (paidFees.map fun f => f.student_id).length :=
        (List.dedup_sublist _).length_le
    _ = paidFees.length := List.length_map _ _

/-- C5 counterexample: with one active student (id 2, unpaid) and one
payment row from non-active student 1, the code's `unpaidCount` is 1,
while the claim's active-set size minus paid-student count is `1 - 1 = 0`. -/
theorem unpaidCount_ne_active_minus_paid :
    (buildDashboard [studentTwo] [feeA] none none).unpaidCount = 1 ∧
      (buildDashboard [studentTwo] [feeA] none none).activeCount
        - specDistinctPaidCount [feeA] = 0 ∧
      (buildDashboard [studentTwo] [feeA] none none).unpaidCount
        ≠ (buildDashboard [studentTwo] [feeA] none none).activeCount
          - specDistinctPaidCount [feeA] := by
  refine ⟨?_, ?_, ?_⟩ <;> decide

/-- C5 amended: `unpaidCount` equals the size of the active set minus the
number of *active-set* students with at least one payment row for the
period (payment rows from students outside the active set do not shrink
it). -/
theorem unpaidCount_eq_active_minus_activePaid (active : List Student)
    (paidFees : List Fee) (l : Option (List Student))
    (m : Option (List AttendanceRecord)) :
    (buildDashboard active paidFees l m).unpaidCount =
      active.length
        - (active.filter fun s => (paidStudentIds paidFees).contains s.id).length := by
  show (unpaidStudents active paidFees).length = _
  unfold unpaidStudents
  exact length_filter_not active _

/-! ## 3. Attendance Aggregator

The `attendanceSummary` memo (`App.tsx` lines 286–308): a record keyed by
`student_id` is built by walking `dashboard.monthlyAttendance`, creating a
zero tally on first sight of a student and incrementing the field matching
each row's status; then the students list is narrowed to `status = Active`
and the optional class filter and each student is paired with their tally
(or all zeros). -/

/-- The four counters of one summary entry (`App.tsx` line 289). -/
structure AttStats where
  present : Nat
  absent : Nat
  leave : Nat
  holiday : Nat
  deriving DecidableEq, Repr

/-- The zero tally (`App.tsx` lines 293 and 306). -/
def emptyStats : AttStats := ⟨0, 0, 0, 0⟩

/-- The four `if (record.status === ...) summary[id].x++` lines
(`App.tsx` lines 295–298). -/
def bumpStats (t : AttStats) (st : AttStatus) : AttStats :=
  match st with
  | AttStatus.Present => { t with present := t.present + 1 }
  | AttStatus.Absent => { t with absent := t.absent + 1 }
  | AttStatus.Leave => { t with leave := t.leave + 1 }
  | AttStatus.Holiday => { t with holiday := t.holiday + 1 }

/-- One step of the `forEach` body (`App.tsx` lines 291–299): initialize the
record's tally to zeros when absent, then bump the field for its status. -/
def summaryStep (m : Nat → Option AttStats) (r : AttendanceRecord) :
    Nat → Option AttStats :=
  fun id =>
    if id = r.student_id
    then some (bumpStats ((m r.student_id).getD emptyStats) r.status)
    else m id

/-- The `summary` record after the `forEach` (`App.tsx` lines 289–299). -/
def summaryMap (recs : List AttendanceRecord) : Nat → Option AttStats :=
  recs.foldl summaryStep fun _ => none

/-- The `attendanceSummary` memo result (`App.tsx` lines 301–307): Active
students, then the class filter (`!reportFilter ||` means an empty filter passes everything),
each paired with `summary[s.id] || zeros`. -/
def attendanceSummary (monthlyAttendance : List AttendanceRecord)
    (students : List Student) (reportFilter : String) :
    List (Student × AttStats) :=
  ((students.filter fun s => s.status == StudentStatus.Active).filter
      fun s => reportFilter == "" || s.class_grade == reportFilter).map
    fun s => (s, (summaryMap monthlyAttendance s.id).getD emptyStats)

/-- The number of attendance rows of student `sid` with status `st`. -/
def countStatus (recs : List AttendanceRecord) (sid : Nat) (st : AttStatus) : Nat :=
  (recs.filter fun r => r.student_id == sid && r.status == st).length

theorem summaryMap_foldl (recs : List AttendanceRecord) :
    ∀ (m : Nat → Option AttStats) (sid : Nat),
    ((recs.foldl summaryStep m) sid).getD emptyStats =
      { present := ((m sid).getD emptyStats).present
          + countStatus recs sid AttStatus.Present
        absent := ((m sid).getD emptyStats).absent
          + countStatus recs sid AttStatus.Absent
        leave := ((m sid).getD emptyStats).leave
          + countStatus recs sid AttStatus.Leave
        holiday := ((m sid).getD emptyStats).holiday
          + countStatus recs sid AttStatus.Holiday } := by
  induction recs with
  | nil =>
    intro m sid
    simp [countStatus]
  | cons r rs ih =>
    intro m sid
    rw [List.foldl_cons, ih]
    by_cases hsid : sid = r.student_id
    · subst hsid
      cases hst : r.status <;>
        simp [summaryStep, bumpStats, countStatus, List.filter_cons, hst,
          AttStats.mk.injEq] <;>
        omega
    · have hsid' : r.student_id ≠ sid := fun h => hsid h.symm
      simp [summaryStep, bumpStats, countStatus, List.filter_cons, hsid, hsid']

theorem countStatus_total (recs : List AttendanceRecord) (sid : Nat) :
    countStatus recs sid AttStatus.Present + countStatus recs sid AttStatus.Absent
      + countStatus recs sid AttStatus.Leave + countStatus recs sid AttStatus.Holiday
    = (recs.filter fun r => r.student_id == sid).length := by
  induction recs with
  | nil => simp [countStatus]
  | cons r rs ih =>
    by_cases h : r.student_id = sid
    · cases hst : r.status <;>
        simp only [countStatus, List.filter_cons, h, hst, beq_self_eq_true,
          Bool.true_and, Bool.and_eq_true] at * <;>
        simp_all <;> omega
    · simp only [countStatus, List.filter_cons] at *
      simp [h, ih]

/-- C6: the attendance summary lists exactly the Active (and class-matching)
students, in order, and each entry's four counters count that student's
attendance rows with the matching status inside the month; hence a student
with zero rows gets `{0,0,0,0}` and the counters sum to the student's row
count. -/
theorem attendance_summary_spec (monthlyAttendance : List AttendanceRecord)
    (students : List Student) (reportFilter : String) :
    ((attendanceSummary monthlyAttendance students reportFilter).map Prod.fst
      = (students.filter fun s => s.status == StudentStatus.Active).filter
          fun s => reportFilter == "" || s.class_grade == reportFilter) ∧
    ∀ p ∈ attendanceSummary monthlyAttendance students reportFilter,
      p.1.status = StudentStatus.Active ∧
      p.2.present = countStatus monthlyAttendance p.1.id AttStatus.Present ∧
      p.2.absent = countStatus monthlyAttendance p.1.id AttStatus.Absent ∧
      p.2.leave = countStatus monthlyAttendance p.1.id AttStatus.Leave ∧
      p.2.holiday = countStatus monthlyAttendance p.1.id AttStatus.Holiday ∧
      p.2.present + p.2.absent + p.2.leave + p.2.holiday
        = (monthlyAttendance.filter fun r => r.student_id == p.1.id).length := by
  constructor
  · unfold attendanceSummary
    rw [List.map_map]
    simp [Function.comp_def]
  · intro p hp
    unfold attendanceSummary at hp
    rw [List.mem_map] at hp
    obtain ⟨s, hs, hps⟩ := hp
    have hact : s.status = StudentStatus.Active := by
      have := (List.mem_filter.mp (List.mem_filter.mp hs).1).2
      simpa using this
    have hstats : p.2 = (summaryMap monthlyAttendance s.id).getD emptyStats := by
      rw [← hps]
    have hp1 : p.1 = s := by rw [← hps]
    have hfold := summaryMap_foldl monthlyAttendance (fun _ => none) s.id
    rw [summaryMap] at hstats
    rw [hfold] at hstats
    simp only [Option.getD_none] at hstats
    rw [hp1, hstats]
    refine ⟨hact, by simp [emptyStats], by simp [emptyStats], by simp [emptyStats],
      by simp [emptyStats], ?_⟩
    simp only [emptyStats]
    simpa using countStatus_total monthlyAttendance s.id

/-- A student who has left (status `Left`, leaving date set). -/
def studentGone : Student :=
  { id := 3, full_name := "Meera Iyer", class_grade := "10", parent_phone := "7"
    admission_date := 20230801, batch_timing := none
    status := StudentStatus.Left, leaving_date := some 20240110 }

/-- Attendance rows of January 2024, all for student 1. -/
def attR1 : AttendanceRecord :=
  { id := 1, student_id := 1, attendance_date := 20240103, status := AttStatus.Present }

def attR2 : AttendanceRecord :=
  { id := 2, student_id := 1, attendance_date := 20240104, status := AttStatus.Present }

def attR3 : AttendanceRecord :=
  { id := 3, student_id := 1, attendance_date := 20240105, status := AttStatus.Holiday }

def demoAtt : List AttendanceRecord := [attR1, attR2, attR3]

def demoStudents : List Student := [studentOne, studentTwo, studentGone]

theorem attendance_summary_spec_witness :
    (studentOne, (⟨2, 0, 0, 1⟩ : AttStats)).1.status = StudentStatus.Active ∧
      (studentOne, (⟨2, 0, 0, 1⟩ : AttStats)).2.present
        = countStatus demoAtt (studentOne, (⟨2, 0, 0, 1⟩ : AttStats)).1.id
            AttStatus.Present ∧
      (studentOne, (⟨2, 0, 0, 1⟩ : AttStats)).2.absent
        = countStatus demoAtt (studentOne, (⟨2, 0, 0, 1⟩ : AttStats)).1.id
            AttStatus.Absent ∧
      (studentOne, (⟨2, 0, 0, 1⟩ : AttStats)).2.leave
        = countStatus demoAtt (studentOne, (⟨2, 0, 0, 1⟩ : AttStats)).1.id
            AttStatus.Leave ∧
      (studentOne, (⟨2, 0, 0, 1⟩ : AttStats)).2.holiday
        = countStatus demoAtt (studentOne, (⟨2, 0, 0, 1⟩ : AttStats)).1.id
            AttStatus.Holiday ∧
      (studentOne, (⟨2, 0, 0, 1⟩ : AttStats)).2.present
          + (studentOne, (⟨2, 0, 0, 1⟩ : AttStats)).2.absent
          + (studentOne, (⟨2, 0, 0, 1⟩ : AttStats)).2.leave
          + (studentOne, (⟨2, 0, 0, 1⟩ : AttStats)).2.holiday
        = (demoAtt.filter fun r =>
            r.student_id == (studentOne, (⟨2, 0, 0, 1⟩ : AttStats)).1.id).length :=
  (attendance_summary_spec demoAtt demoStudents "").2
    (studentOne, ⟨2, 0, 0, 1⟩) (by decide)

/-! ## 4. Attendance Upsert Policy

`markAttendance` (`App.tsx` lines 311–328) and the two bulk buttons
(`App.tsx` lines 646–663 and 664–681) write via

    client.from('attendance').upsert(rows, onConflict 'student_id,attendance_date')

The upsert itself runs in the hosted table store, outside this repository;
it is modelled below from the spec. -/

/-- Modelled from the spec: the Entity Snapshot Store's keyed write
`upsertAttendance(studentId, date, status)` (spec §6, §4.4), missing from
`src/` because it is executed by the hosted table store.  Per the spec it is
an insert-or-replace on the conflict key `(student_id, attendance_date)`:
any row with the written key is replaced, never duplicated. -/
def upsertOne (table : List AttendanceRecord) (r : AttendanceRecord) :
    List AttendanceRecord :=
  (table.filter fun a =>
      !(a.student_id == r.student_id && a.attendance_date == r.attendance_date))
    ++ [r]

/-- Modelled from the spec: a bulk upsert (`Mark All Present` /
`Mark All Holiday`) applies the keyed write to each batch element. -/
def upsertBatch (table : List AttendanceRecord) (batch : List AttendanceRecord) :
    List AttendanceRecord :=
  batch.foldl upsertOne table

/-- At most one attendance row per `(student, date)` key. -/
def KeyUnique (table : List AttendanceRecord) : Prop :=
  table.Pairwise fun a b =>
    ¬(a.student_id = b.student_id ∧ a.attendance_date = b.attendance_date)

instance (table : List AttendanceRecord) : Decidable (KeyUnique table) := by
  unfold KeyUnique
  exact inferInstance

theorem keyUnique_upsertOne (table : List AttendanceRecord) (r : AttendanceRecord)
    (h : KeyUnique table) : KeyUnique (upsertOne table r) := by
  unfold KeyUnique upsertOne at *
  rw [List.pairwise_append]
  refine ⟨List.Pairwise.sublist (List.filter_sublist table) h, by simp, ?_⟩
  intro a ha b hb
  have hb' : b = r := by simpa using hb
  subst hb'
  have hpred := List.of_mem_filter ha
  simp only [Bool.not_eq_true', Bool.and_eq_false_iff, beq_eq_false_iff_ne] at hpred
  rintro ⟨h1, h2⟩
  cases hpred with
  | inl hne => exact hne h1
  | inr hne => exact hne h2

theorem keyUnique_upsertBatch (table : List AttendanceRecord)
    (batch : List AttendanceRecord) (h : KeyUnique table) :
    KeyUnique (upsertBatch table batch) := by
  unfold upsertBatch
  induction batch generalizing table with
  | nil => exact h
  | cons b bs ih => exact ih (upsertOne table b) (keyUnique_upsertOne table b h)

theorem upsertOne_idem (table : List AttendanceRecord) (r : AttendanceRecord) :
    upsertOne (upsertOne table r) r = upsertOne table r := by
  unfold upsertOne
  rw [List.filter_append, List.filter_filter]
  simp

/-- C7: every attendance write preserves the at-most-one-row-per-(student,
date) invariant — the single mark, and each element of a bulk batch — and
writing the same mark twice leaves the table unchanged after the first
write (one row, not two). -/
theorem attendance_upsert_policy (table : List AttendanceRecord)
    (r : AttendanceRecord) (batch : List AttendanceRecord)
    (h : KeyUnique table) :
    KeyUnique (upsertOne table r) ∧
      upsertOne (upsertOne table r) r = upsertOne table r ∧
      KeyUnique (upsertBatch table batch) :=
  ⟨keyUnique_upsertOne table r h, upsertOne_idem table r,
    keyUnique_upsertBatch table batch h⟩

/-- The pre-existing Holiday mark of student 2 on 2024-01-05. -/
def holidayRow : AttendanceRecord :=
  { id := 9, student_id := 2, attendance_date := 20240105, status := AttStatus.Holiday }

/-- The bulk batch marking students 1, 2, 3 Present on 2024-01-05
(one upsert object per filtered active student, `App.tsx` lines 651–656). -/
def presentBatch : List AttendanceRecord :=
  [{ id := 0, student_id := 1, attendance_date := 20240105, status := AttStatus.Present },
   { id := 0, student_id := 2, attendance_date := 20240105, status := AttStatus.Present },
   { id := 0, student_id := 3, attendance_date := 20240105, status := AttStatus.Present }]

theorem attendance_upsert_policy_witness :
    KeyUnique [holidayRow] ∧
      KeyUnique (upsertBatch [holidayRow] presentBatch) ∧
      (upsertBatch [holidayRow] presentBatch).length = 3 ∧
      (upsertBatch [holidayRow] presentBatch).all
        (fun a => a.status == AttStatus.Present) = true :=
  ⟨by decide,
    (attendance_upsert_policy [holidayRow] holidayRow presentBatch (by decide)).2.2,
    by decide, by decide⟩

/-! ## 5. Reconciliation pass vs. an unreachable store

`fetchData` (`App.tsx` lines 166–250) destructures only `data` from each
store read; an unreachable store yields null `data` everywhere, and every
state write is guarded: `if (studentsData) setStudents(...)` (line 187),
`if (attData) setAttendance(...)` (line 195), and
`if (activeStudents && paidFees) setDashboard(...)` (line 229). -/

/-- The component state written by one pass: the `students`, `attendance`
and `dashboard` state hooks (`App.tsx` lines 119–121). -/
structure AppState where
  students : List Student
  attendance : List AttendanceRecord
  dashboard : Option DashboardData
  deriving DecidableEq, Repr

/-- The nullable `data` of the six store reads of one `fetchData` pass
(`App.tsx` lines 182–227); a failed read gives `none`. -/
structure FetchResults where
  studentsData : Option (List Student)
  attData : Option (List AttendanceRecord)
  activeStudents : Option (List Student)
  paidFees : Option (List Fee)
  leftStudents : Option (List Student)
  monthlyAtt : Option (List AttendanceRecord)
  deriving DecidableEq, Repr

/-- The state updates performed by one `fetchData` pass (`App.tsx`
lines 187, 195 and 229–249). -/
def fetchDataStep (prev : AppState) (q : FetchResults) : AppState :=
  { students := q.studentsData.getD prev.students
    attendance := q.attData.getD prev.attendance
    dashboard :=
      match q.activeStudents, q.paidFees with
      | some active, some fees =>
          some (buildDashboard active fees q.leftStudents q.monthlyAtt)
      | _, _ => prev.dashboard }

/-- C9: when the snapshot store cannot be reached — every read of the pass
returns null — the pass leaves all previously published derived state
exactly as it was; nothing is partially replaced. -/
theorem store_unreachable_retains_state (prev : AppState) (q : FetchResults)
    (h1 : q.studentsData = none) (h2 : q.attData = none)
    (h3 : q.activeStudents = none) (h4 : q.paidFees = none)
    (_h5 : q.leftStudents = none) (_h6 : q.monthlyAtt = none) :
    fetchDataStep prev q = prev := by
  simp [fetchDataStep, h1, h2, h3, h4]

/-- A previously published state with data in every slot. -/
def demoPrev : AppState :=
  { students := demoStudents
    attendance := demoAtt
    dashboard := some (buildDashboard [studentOne] [feeA] none none) }

/-- The read results of a pass against an unreachable store. -/
def allNone : FetchResults :=
  { studentsData := none, attData := none, activeStudents := none
    paidFees := none, leftStudents := none, monthlyAtt := none }

theorem store_unreachable_retains_state_witness :
    fetchDataStep demoPrev allNone = demoPrev :=
  store_unreachable_retains_state demoPrev allNone rfl rfl rfl rfl rfl rfl

/-! ## 6. Report Exporter

`exportCSV` (`App.tsx` lines 410–450; fee-only variant
`part_000` lines 311–329): rows are taken from `dashboard.paidFees`
(fee report, class-filtered) or from `attendanceSummary` (attendance
report) and serialized with `[headers, ...rows].map(e => e.join(",")).join("\n")`. -/

/-- JS `x || d` on an optional string: `d` when null/undefined or empty. -/
def jsStrOr (v : Option String) (d : String) : String :=
  match v with
  | some s => if s == "" then d else s
  | none => d

/-- The string the exported row carries for the payment channel. -/
def modeText (m : PaymentMode) : String :=
  match m with
  | PaymentMode.Cash => "Cash"
  | PaymentMode.Online => "Online"

/-- The class filter test `f.student?.class_grade === reportFilter`: false when the join is null. -/
def feeClassMatches (f : Fee) (reportFilter : String) : Bool :=
  match f.student with
  | some s => s.class_grade == reportFilter
  | none => false

/-- One fee report row (`App.tsx` lines 416–422). -/
def feeRow (f : Fee) : List String :=
  [jsStrOr (f.student.map fun s => s.full_name) "Unknown",
   toString f.amount, f.paid_date, modeText f.payment_mode,
   jsStrOr f.payment_reference ""]

/-- The fee report rows (`App.tsx` lines 414–422): the dashboard's
`paidFees`, class-filtered, mapped to rows. -/
def feeReportRows (dashboard : DashboardData) (reportFilter : String) :
    List (List String) :=
  (dashboard.paidFees.filter fun f =>
      reportFilter == "" || feeClassMatches f reportFilter).map feeRow

/-- One attendance report row (`App.tsx` lines 433–440). -/
def attendanceRow (p : Student × AttStats) : List String :=
  [p.1.full_name, p.1.class_grade, toString p.2.present, toString p.2.absent,
   toString p.2.leave, toString p.2.holiday]

/-- The attendance report rows (`App.tsx` lines 433–440): the
`attendanceSummary` entries mapped to rows. -/
def attendanceReportRows (summary : List (Student × AttStats)) :
    List (List String) :=
  summary.map attendanceRow

def feeHeaders : List String := ["Student Name", "Amount", "Date", "Mode", "Reference"]

def attendanceHeaders : List String :=
  ["Student Name", "Class", "Present", "Absent", "Leave", "Holiday"]

/-- The row serialization `e.join(",")` (`App.tsx` lines 423 and 441). -/
def csvLine (fields : List String) : String := String.intercalate "," fields

/-- The file serialization `[headers, ...rows].map(e => e.join(",")).join("\n")`. -/
def csvContent (headers : List String) (rows : List (List String)) : String :=
  String.intercalate "\n" ((headers :: rows).map csvLine)

/-- The number of separator (comma) characters in a string; a CSV consumer
splits a line into `sepCount + 1` fields. -/
def sepCount (s : String) : Nat :=
  (s.toList.filter fun c => c == ',').length

theorem sepCount_append (a b : String) :
    sepCount (a ++ b) = sepCount a + sepCount b := by
  simp [sepCount, String.toList, String.data_append]

theorem sepCount_comma : sepCount "," = 1 := by decide

theorem sepCount_intercalate_go (as : List String) :
    ∀ acc : String,
      sepCount (String.intercalate.go acc "," as)
        = sepCount acc + (as.map sepCount).sum + as.length := by
  induction as with
  | nil => intro acc; simp [String.intercalate.go]
  | cons a as ih =>
    intro acc
    rw [String.intercalate.go, ih, sepCount_append, sepCount_append, sepCount_comma]
    simp
    omega

/-- The separator count of an unescaped joined line: every separator embedded
in a value survives, plus one separator between consecutive fields. -/
theorem sepCount_csvLine (fields : List String) :
    sepCount (csvLine fields)
      = (fields.map sepCount).sum + (fields.length - 1) := by
  unfold csvLine
  cases fields with
  | nil => decide
  | cons a as =>
    rw [String.intercalate, sepCount_intercalate_go]
    simp


/-- A fee row whose joined student name embeds the separator. -/
def feeComma : Fee :=
  { id := 3, student_id := 4, fee_month := "2024-01", amount := 800
    paid_date := "2024-01-07", payment_mode := PaymentMode.Cash
    payment_reference := none
    student := some { full_name := "Doe, John", class_grade := "10", batch_timing := none } }

/-- C10 counterexample: the exporter leaves the separator inside a value
un-escaped, so the serialized line of a 5-field row carries 5 separators —
a CSV consumer parses 6 fields under the 5-column header, corrupting the
row structure. -/
theorem export_csv_unescaped_counterexample :
    feeReportRows (buildDashboard [] [feeComma] none none) ""
      = [["Doe, John", "800", "2024-01-07", "Cash", ""]] ∧
      csvLine ["Doe, John", "800", "2024-01-07", "Cash", ""]
        = "Doe, John,800,2024-01-07,Cash," ∧
      sepCount (csvLine ["Doe, John", "800", "2024-01-07", "Cash", ""]) = 5 ∧
      feeHeaders.length = 5 ∧
      sepCount (csvLine ["Doe, John", "800", "2024-01-07", "Cash", ""])
        ≠ feeHeaders.length - 1 := by
  refine ⟨?_, ?_, ?_, ?_, ?_⟩ <;> decide

/-- C10 amended: the exported report rows do reproduce the engine's
semantics — each fee row comes from a `paidFees` entry of the reconciled
dashboard passing the class filter, and each attendance row carries exactly
the aggregator's four counters for an Active student — but the values are
joined with the raw separator and no escaping, so a value containing the
separator shifts the parsed column structure (`sepCount` grows by the
embedded separators instead of staying at `fields - 1`). -/
theorem export_rows_match_engine :
    (∀ (dashboard : DashboardData) (reportFilter : String) (row : List String),
      row ∈ feeReportRows dashboard reportFilter →
        ∃ f ∈ dashboard.paidFees,
          (reportFilter == "" || feeClassMatches f reportFilter) = true ∧
          row = feeRow f) ∧
    (∀ (att : List AttendanceRecord) (students : List Student)
        (reportFilter : String) (row : List String),
      row ∈ attendanceReportRows (attendanceSummary att students reportFilter) →
        ∃ s ∈ students, s.status = StudentStatus.Active ∧
          row = [s.full_name, s.class_grade,
            toString (countStatus att s.id AttStatus.Present),
            toString (countStatus att s.id AttStatus.Absent),
            toString (countStatus att s.id AttStatus.Leave),
            toString (countStatus att s.id AttStatus.Holiday)]) ∧
    (∀ fields : List String,
      sepCount (csvLine fields) = (fields.map sepCount).sum + (fields.length - 1)) := by
  refine ⟨?_, ?_, sepCount_csvLine⟩
  · intro dashboard reportFilter row hrow
    unfold feeReportRows at hrow
    rw [List.mem_map] at hrow
    obtain ⟨f, hf, hrf⟩ := hrow
    exact ⟨f, (List.mem_filter.mp hf).1, (List.mem_filter.mp hf).2, hrf.symm⟩
  · intro att students reportFilter row hrow
    unfold attendanceReportRows at hrow
    rw [List.mem_map] at hrow
    obtain ⟨p, hp, hrp⟩ := hrow
    unfold attendanceSummary at hp
    rw [List.mem_map] at hp
    obtain ⟨s, hs, hps⟩ := hp
    have hmem : s ∈ students :=
      (List.mem_filter.mp (List.mem_filter.mp hs).1).1
    have hact : s.status = StudentStatus.Active := by
      have := (List.mem_filter.mp (List.mem_filter.mp hs).1).2
      simpa using this
    refine ⟨s, hmem, hact, ?_⟩
    have hfold := summaryMap_foldl att (fun _ => none) s.id
    rw [← hrp, ← hps]
    unfold attendanceRow
    rw [summaryMap] at *
    rw [hfold]
    simp [emptyStats]

theorem export_rows_match_engine_witness :
    sepCount (csvLine ["Doe, John", "800"])
      = ((["Doe, John", "800"]).map sepCount).sum
        + ((["Doe, John", "800"]).length - 1) :=
  export_rows_match_engine.2.2 ["Doe, John", "800"]

end RajeevClasses
